import Mathlib

/-!
A Lean 4 model of `src/esp32cam/apps/LineCrossingCounter.h` from the
EloquentEsp32cam library, together with theorems about its behaviour.

Machine integers are modelled as `Nat`, with explicit `% 2 ^ 16` /
`% 2 ^ 8` reductions wherever the C++ stores into `uint16_t` / `uint8_t`
and the value could exceed the width; the C++ `float` configuration
fields are modelled as `ℚ`, and `int` intermediates as `ℤ`.  The class
inherits from two traits (`Debounces`, `HasErrorMessage`) and talks to a
motion `Detector`; those three collaborators are not part of the sources
and are modelled from the spec at their interface boundary.
-/

namespace LineCrossing

/-- Reduction of an integer into `uint16_t` range, as the C++
int-to-`uint16_t` conversion does (mod 2^16). -/
def u16ofInt (z : ℤ) : ℕ := (z % 65536).toNat

/-- Conversion of a rational to `uint16_t`: for nonnegative values the
C++ `float`-to-`uint16_t` conversions in `update()` truncate the
fractional part (floor).  For negative or oversized values the C++
conversion is undefined behaviour; the model takes the floor and then
reduces mod 2^16. -/
def qToU16 (q : ℚ) : ℕ := u16ofInt ⌊q⌋

/-- Modelled from the spec: the external motion `Detector` collaborator
(`esp32cam/motion/Detector.h` is not among the sources), reduced to the
interface `update()` consumes: grid dimensions in cells and the per-cell
foreground query. -/
structure Detector where
  width : ℕ
  height : ℕ
  isForeground : ℕ → ℕ → Bool

/-- The state of a `LineCrossingCounter` object.  Fields `x`, `miny`,
`maxy`, `lag`, `sparsity`, `t`, `ltrCount`, `rtlCount` and `motion`
mirror the C++ members `_x`, `_miny`, `_maxy`, `_lag`, `_sparsity`,
`_t`, `_ltrCount`, `_rtlCount`, `_motion[7]`.  `debounceElapsed` models
the inherited `Debounces` trait (modelled from the spec: a cooldown gate
with a `debounced()` query and a `touch()` reset), and `errorMessage`
models the inherited `HasErrorMessage` trait (a settable status
string). -/
structure State where
  x : ℚ
  miny : ℚ
  maxy : ℚ
  lag : ℕ
  sparsity : ℕ
  t : ℕ
  ltrCount : ℕ
  rtlCount : ℕ
  motion : Fin 7 → ℕ
  debounceElapsed : Bool
  errorMessage : String
deriving DecidableEq

/-- Modelled from the spec: `HasErrorMessage.setErrorMessage` stores the
status message; used as `return setErrorMessage(...)` inside
`bool update()` it reports success exactly when the message is empty
(the success path of `update()` ends in `return setErrorMessage("")`,
the two failure paths return it with a nonempty message and yield
`false`). -/
def setErrorMessage (s : State) (msg : String) : Bool × State :=
  (msg == "", { s with errorMessage := msg })

/-- Modelled from the spec: `Debounces.debounced()` — has the cooldown
elapsed since the last accepted event? -/
def debounced (s : State) : Bool := s.debounceElapsed

/-- Modelled from the spec: `Debounces.touch()` — mark an event
accepted, resetting the cooldown clock; immediately afterwards the
cooldown has not elapsed. -/
def touch (s : State) : State := { s with debounceElapsed := false }

/-- The constructor `LineCrossingCounter(detector)`: `_x = 0`,
`_miny = 0`, `_maxy = 0.999`, `_t = 0`, `_lag = 3`, `_sparsity = 4`,
both counters 0.  The C++ member `_motion` has no initialiser; following
the data model (slot value 0 means never observed, and embedded
instances live in zero-initialised static storage) the model starts all
seven slots at 0.  The cooldown gate starts un-elapsed. -/
def init : State :=
  { x := 0, miny := 0, maxy := 999 / 1000, lag := 3, sparsity := 4,
    t := 0, ltrCount := 0, rtlCount := 0, motion := fun _ => 0,
    debounceElapsed := false, errorMessage := "" }

/-- The resolved line column: `_x >= 1 ? _x / 8 : _x * width`, stored
into `uint16_t x` (line 93). -/
def resolvedX (d : Detector) (s : State) : ℕ :=
  qToU16 (if 1 ≤ s.x then s.x / 8 else s.x * (d.width : ℚ))

/-- The resolved upper row bound: `height - (_miny >= 1 ? _miny / 8 :
_miny * height)`, computed in `float` and stored into `uint16_t above`
(line 94). -/
def resolvedAbove (d : Detector) (s : State) : ℕ :=
  qToU16 ((d.height : ℚ) -
    (if 1 ≤ s.miny then s.miny / 8 else s.miny * (d.height : ℚ)))

/-- The resolved lower row bound: `height - (_maxy >= 1 ? _maxy / 8 :
_maxy * height)`, stored into `uint16_t below` (line 95). -/
def resolvedBelow (d : Detector) (s : State) : ℕ :=
  qToU16 ((d.height : ℚ) -
    (if 1 ≤ s.maxy then s.maxy / 8 else s.maxy * (d.height : ℚ)))

/-- The post-increment tick of an `update()` call: `_t += 1; if (_t >
65000) _t = 1;` (lines 103-106), with the `uint16_t` wrap of the
increment made explicit. -/
def nextT (s : State) : ℕ :=
  if 65000 < (s.t + 1) % 65536 then 1 else (s.t + 1) % 65536

/-- The column sampled for bin offset `i` and sub-offset `j`:
`dx + x` where `const int16_t dx = i * _sparsity + j` (line 118).  The
intermediate values stay far inside `int16_t` range, so plain integer
arithmetic is faithful. -/
def colAt (x : ℕ) (i : ℤ) (sparsity : ℕ) (j : ℕ) : ℤ :=
  i * (sparsity : ℤ) + (j : ℤ) + (x : ℤ)

/-- The row scan of one sampled column (lines 123-128): is any cell of
rows `below ≤ y < above` foreground?  The C++ loop stops at the first
foreground cell; only whether one exists is observable in the slot. -/
def colFound (d : Detector) (col below above : ℕ) : Bool :=
  (List.range' below (above - below)).any fun y => d.isForeground col y

/-- The column loop of one bin (lines 117-132): `js` is the list of
remaining sub-offsets `j`, `slot` the bin's current timestamp.  A column
with `dx + x < 0 || dx + x > width` is skipped (line 120); otherwise its
rows are scanned and a foreground hit stores the current tick `t` into
the slot (line 125); after an unskipped column, `if (_motion[i + 3])
break;` (line 130) ends the loop whenever the slot is nonzero.  Returns
the final slot value and the list of unskipped columns, in scan order
(each of which, when the row range is nonempty, is passed to
`isForeground`). -/
def scanCols (d : Detector) (x below above t : ℕ) (i : ℤ) (sparsity : ℕ) :
    List ℕ → ℕ → ℕ × List ℕ
  | [], slot => (slot, [])
  | j :: js, slot =>
    if colAt x i sparsity j < 0 ∨ (d.width : ℤ) < colAt x i sparsity j then
      scanCols d x below above t i sparsity js slot
    else if (if colFound d (colAt x i sparsity j).toNat below above then t else slot) = 0 then
      ((scanCols d x below above t i sparsity js 0).1,
        (colAt x i sparsity j).toNat :: (scanCols d x below above t i sparsity js 0).2)
    else
      ((if colFound d (colAt x i sparsity j).toNat below above then t else slot),
        [(colAt x i sparsity j).toNat])

/-- One bin of the sampling loop (lines 110-133) at offset `i` with
current slot value `slot`: the bin is skipped when `_motion[i + 3] >=
_t - _lag` (int arithmetic, line 114), otherwise its columns are
scanned. -/
def scanBin (d : Detector) (x below above t lag sparsity : ℕ) (i : ℤ)
    (slot : ℕ) : ℕ × List ℕ :=
  if (t : ℤ) - (lag : ℤ) ≤ (slot : ℤ) then (slot, [])
  else scanCols d x below above t i sparsity (List.range sparsity) slot

/-- The indices of the six active bins, in loop order `i = -3 .. 3`
skipping `i = 0` (lines 110-112): index `i + 3`. -/
def activeBins : List (Fin 7) := [0, 1, 2, 4, 5, 6]

/-- The whole sampling loop of `update()` (lines 110-133): the new
motion buffer (slot 3, the line itself, is never written) and the
concatenated column trace of the six active bins in loop order. -/
def scanAll (d : Detector) (x below above t lag sparsity : ℕ)
    (motion : Fin 7 → ℕ) : (Fin 7 → ℕ) × List ℕ :=
  (fun k => if k = 3 then motion k
    else (scanBin d x below above t lag sparsity ((k : ℤ) - 3) (motion k)).1,
   (activeBins.map fun k : Fin 7 =>
     (scanBin d x below above t lag sparsity ((k : ℤ) - 3) (motion k)).2).flatten)

/-- The sampling loop of `update()` applied to the resolved coordinates
and post-increment tick of state `s`. -/
def scanAllR (d : Detector) (s : State) : (Fin 7 → ℕ) × List ℕ :=
  scanAll d (resolvedX d s) (resolvedBelow d s) (resolvedAbove d s)
    (nextT s) s.lag s.sparsity s.motion

/-- The scan of the single bin with buffer index `k` (offset `k - 3`),
as performed by a successful `update()` from state `s`. -/
def binScan (d : Detector) (s : State) (k : Fin 7) : ℕ × List ℕ :=
  scanBin d (resolvedX d s) (resolvedBelow d s) (resolvedAbove d s)
    (nextT s) s.lag s.sparsity ((k : ℤ) - 3) (s.motion k)

/-- The method `bool update()` (lines 90-136), instrumented with the column trace:
resolve the coordinates, validate (`x < 1` and `below >= above`, lines
97-101), advance the tick, run the sampling loop, clear the error.
Returns (return value, new state, trace of sampled columns). -/
def updateFull (d : Detector) (s : State) : Bool × State × List ℕ :=
  if resolvedX d s < 1 then
    ((setErrorMessage s ("x-coordinate must be >= 8")).1,
     (setErrorMessage s ("x-coordinate must be >= 8")).2, [])
  else if resolvedAbove d s ≤ resolvedBelow d s then
    ((setErrorMessage s ("above/below limits mismatch")).1,
     (setErrorMessage s ("above/below limits mismatch")).2, [])
  else
    ((setErrorMessage { s with t := nextT s, motion := (scanAllR d s).1 } ("")).1,
     (setErrorMessage { s with t := nextT s, motion := (scanAllR d s).1 } ("")).2,
     (scanAllR d s).2)

/-- The method `bool update()` as the caller sees it: return value and new state. -/
def update (d : Detector) (s : State) : Bool × State :=
  ((updateFull d s).1, (updateFull d s).2.1)

/-- The slot index `a + 3` of `gt` (lines 237-238); all call sites pass
offsets in `[-3, 3]`, for which `toNat % 7` is the identity on the C++
index. -/
def idx (k : ℤ) : Fin 7 := ⟨k.toNat % 7, Nat.mod_lt _ (by omega)⟩

/-- The body of `uint8_t gt(int a, int b)` (lines 236-248) as a function
of the two slot values `ma = _motion[a + 3]`, `mb = _motion[b + 3]` and
the fields `_t`, `_lag`: score 0 when either slot is unstamped or `ma`
is stale (`_motion[a] < _t - 2 * _lag`, int arithmetic); 10 when `ma`
strictly exceeds `mb` by at most `_lag`; otherwise the boolean
`ma >= mb && ma - mb <= _lag` as 1 or 0. -/
def score (t lag ma mb : ℕ) : ℕ :=
  if ma = 0 ∨ mb = 0 ∨ (ma : ℤ) < (t : ℤ) - 2 * (lag : ℤ) then 0
  else if mb < ma ∧ (ma : ℤ) - (mb : ℤ) ≤ (lag : ℤ) then 10
  else if mb ≤ ma ∧ (ma : ℤ) - (mb : ℤ) ≤ (lag : ℤ) then 1
  else 0

/-- The method `uint8_t gt(int a, int b)`: the happened-after score of bin offset
`a` against bin offset `b`. -/
def gt (s : State) (a b : ℤ) : ℕ :=
  score s.t s.lag (s.motion (idx (a + 3))) (s.motion (idx (b + 3)))

/-- The sum `const uint8_t crossed = gt(-2, -3) + gt(-1, -2) + gt(1, -1) +
gt(2, 1);` (line 147); the sum is at most 40, so the `uint8_t` store
never actually wraps. -/
def ltrScore (s : State) : ℕ :=
  (gt s (-2) (-3) + gt s (-1) (-2) + gt s 1 (-1) + gt s 2 1) % 256

/-- The sum `const uint8_t crossed = gt(-2, -1) + gt(-1, 1) + gt(1, 2) +
gt(2, 3);` (line 167). -/
def rtlScore (s : State) : ℕ :=
  (gt s (-2) (-1) + gt s (-1) 1 + gt s 1 2 + gt s 2 3) % 256

/-- The method `bool crossedFromLeftToRight()` (lines 143-156): return `false`
while the debounce cooldown has not elapsed; otherwise accept when
`crossed > 20 && (crossed % 10) > 0`, incrementing `_ltrCount`
(`uint16_t`) and touching the cooldown. -/
def crossedFromLeftToRight (s : State) : Bool × State :=
  if ¬ debounced s then (false, s)
  else if 20 < ltrScore s ∧ ltrScore s % 10 ≠ 0 then
    (true, touch { s with ltrCount := (s.ltrCount + 1) % 65536 })
  else (false, s)

/-- The method `bool crossedFromRightToLeft()` (lines 163-176). -/
def crossedFromRightToLeft (s : State) : Bool × State :=
  if ¬ debounced s then (false, s)
  else if 20 < rtlScore s ∧ rtlScore s % 10 ≠ 0 then
    (true, touch { s with rtlCount := (s.rtlCount + 1) % 65536 })
  else (false, s)

/-- The operations a caller (or the environment) can perform on a live
object: the two queries, `update()` against some detector state, the
five configuration setters (lines 44-84; `lag` and `sparsity` take
`uint8_t`), and the passage of cooldown time on the modelled `Debounces`
trait. -/
inductive Op where
  | doUpdate (d : Detector)
  | queryLtr
  | queryRtl
  | lineAt (v : ℚ)
  | above (v : ℚ)
  | below (v : ℚ)
  | lag (n : ℕ)
  | sparsity (n : ℕ)
  | cooldown (b : Bool)

/-- The state transition of one operation. -/
def applyOp : Op → State → State
  | .doUpdate d, s => (updateFull d s).2.1
  | .queryLtr, s => (crossedFromLeftToRight s).2
  | .queryRtl, s => (crossedFromRightToLeft s).2
  | .lineAt v, s => { s with x := v }
  | .above v, s => { s with miny := v }
  | .below v, s => { s with maxy := v }
  | .lag n, s => { s with lag := n % 256 }
  | .sparsity n, s => { s with sparsity := n % 256 }
  | .cooldown b, s => { s with debounceElapsed := b }

/-- Run a sequence of operations. -/
def run : List Op → State → State
  | [], s => s
  | o :: os, s => run os (applyOp o s)

/-- A state is reachable when some operation sequence produces it from a
freshly constructed object. -/
def Reach (s : State) : Prop := ∃ ops : List Op, run ops init = s

/-- The sub-offsets `js` of a bin's column loop that pass the bounds
check of line 120, mapped to their grid columns, in loop order. -/
def inBoundsCols (d : Detector) (x : ℕ) (i : ℤ) (sparsity : ℕ)
    (js : List ℕ) : List ℕ :=
  js.filterMap fun j =>
    if colAt x i sparsity j < 0 ∨ (d.width : ℤ) < colAt x i sparsity j then none
    else some (colAt x i sparsity j).toNat

/-! ### Concrete scenarios used by counterexamples and witnesses -/

/-- A 30-by-10 cell grid with no foreground anywhere. -/
def dAllBg : Detector := ⟨30, 10, fun _ _ => false⟩

/-- A 30-by-10 cell grid that is entirely foreground. -/
def dAllFg : Detector := ⟨30, 10, fun _ _ => true⟩

/-- A 16-by-10 cell grid with no foreground, sized so that the sampling
bands touch the right edge. -/
def dEdge : Detector := ⟨16, 10, fun _ _ => false⟩

/-- Buffer stamped in the order (-3, -2, -1, +1) at strictly increasing
ticks 1, 2, 3, 4, each within `lag = 3` of the previous; bins +2, +3
unstamped; current tick 4; cooldown elapsed. -/
def c1cex : State :=
  { init with motion := ![1, 2, 3, 0, 4, 0, 0], t := 4, debounceElapsed := true }

/-- Like `c1cex` but with bins -1 and +1 stamped at the same tick and
bin +2 stamped one tick later, giving scores 10 + 10 + 1 + 10 = 31. -/
def c2acc : State :=
  { init with motion := ![1, 2, 3, 0, 3, 4, 0], t := 4, debounceElapsed := true }

/-- A buffer with motion stamped in exactly one bin. -/
def c9one : State :=
  { init with motion := ![0, 0, 5, 0, 0, 0, 0], t := 6, debounceElapsed := true }

/-- A second strictly increasing (-3, -2, -1, +1) sequence, used to
instantiate the amended C1 theorem. -/
def c1wit : State :=
  { init with motion := ![2, 3, 4, 0, 5, 0, 0], t := 5, debounceElapsed := true }

/-- A freshly constructed counter with the line set to mid-frame
(`lineAt(0.5)`): a valid configuration whose first `update()` has
post-increment tick 1. -/
def sHalf : State := { init with x := 1 / 2 }

/-- Line at mid-frame, pre-update tick 3 (so the post-increment tick 4
exceeds the default lag 3 and every bin is scanned).  On the 16-wide
grid `dEdge` the resolved column is 8 and bin +2 samples columns
16..19. -/
def c5s : State := { init with x := 1 / 2, t := 3 }

/-- Line at mid-frame on the 30-wide grid (resolved column 15),
pre-update tick 10; bin -3 holds the stale stamp 1, the other five
active bins hold the fresh stamp 10. -/
def c6s : State :=
  { init with x := 1 / 2, t := 10, motion := ![1, 10, 10, 0, 10, 10, 10] }

/-- A mid-run tick value with a valid line configuration. -/
def c8wit : State := { init with x := 1 / 2, t := 7 }

/-- A configuration with `lineAt(16)`: an absolute pixel coordinate. -/
def c3cex : State := { init with x := 16 }

/-- A configuration with `above(12)`: an absolute pixel coordinate whose
cell conversion 12/8 = 1.5 is fractional, so truncating before or after
the row inversion gives different results. -/
def c3row : State := { init with miny := 12 }

/-! ### Basic facts about the pairwise score -/

/-- A pairwise score is always 0, 1 or 10. -/
theorem score_cases (t lag ma mb : ℕ) :
    score t lag ma mb = 0 ∨ score t lag ma mb = 1 ∨ score t lag ma mb = 10 := by
  unfold score
  split_ifs <;> simp

/-- A pair with an unstamped slot scores 0. -/
theorem score_zero_of_unstamped {ma mb : ℕ} (t lag : ℕ) (h : ma = 0 ∨ mb = 0) :
    score t lag ma mb = 0 := by
  unfold score
  rcases h with h | h <;> simp [h]

/-- A strictly ordered pair never takes the weak score 1: it scores
0 or 10. -/
theorem score_of_lt (t lag ma mb : ℕ) (h : mb < ma) :
    score t lag ma mb = 0 ∨ score t lag ma mb = 10 := by
  unfold score
  split_ifs with h1 h2 h3
  · exact Or.inl rfl
  · exact Or.inr rfl
  · exact absurd ⟨h, h3.2⟩ h2
  · exact Or.inl rfl

/-- The left-to-right score spelled out on the four slot pairs
`(-2, -3)`, `(-1, -2)`, `(1, -1)`, `(2, 1)` of line 147. -/
theorem ltrScore_eq (s : State) : ltrScore s =
    (score s.t s.lag (s.motion 1) (s.motion 0) +
     score s.t s.lag (s.motion 2) (s.motion 1) +
     score s.t s.lag (s.motion 4) (s.motion 2) +
     score s.t s.lag (s.motion 5) (s.motion 4)) % 256 := rfl

/-- The right-to-left score spelled out on the four slot pairs
`(-2, -1)`, `(-1, 1)`, `(1, 2)`, `(2, 3)` of line 167. -/
theorem rtlScore_eq (s : State) : rtlScore s =
    (score s.t s.lag (s.motion 1) (s.motion 2) +
     score s.t s.lag (s.motion 2) (s.motion 4) +
     score s.t s.lag (s.motion 4) (s.motion 5) +
     score s.t s.lag (s.motion 5) (s.motion 6)) % 256 := rfl

/-! ### C1 -/

section
attribute [local semireducible] Rat.mul Rat.sub Rat.add Rat.inv

/-- C1, counterexample: in state `c1cex` the motion buffer is stamped in
bin order (-3, -2, -1, +1) at the strictly increasing ticks 1, 2, 3, 4,
each within `lag = 3` of the previous, bins +2 and +3 are unstamped, and
the debounce cooldown has elapsed — yet `crossedFromLeftToRight()`
returns `false` and leaves the left-to-right counter unchanged, because
the score is 10 + 10 + 10 + 0 = 30, an exact multiple of 10. -/
theorem c1_counterexample :
    c1cex.motion 0 = 1 ∧ c1cex.motion 1 = 2 ∧ c1cex.motion 2 = 3 ∧
    c1cex.motion 4 = 4 ∧ c1cex.motion 5 = 0 ∧ c1cex.motion 6 = 0 ∧
    c1cex.lag = 3 ∧ c1cex.t = 4 ∧ c1cex.debounceElapsed = true ∧
    ltrScore c1cex = 30 ∧
    (crossedFromLeftToRight c1cex).1 = false ∧
    (crossedFromLeftToRight c1cex).2.ltrCount = c1cex.ltrCount := by
  decide

end

/-- C1, amended: in every state whose motion buffer is stamped in bin
order (-3, -2, -1, +1) at strictly increasing ticks each within `lag` of
the previous and whose bins +2 and +3 are unstamped, each pairwise score
is 0 or 10, so the total is a multiple of 10 (at most 30) and the
`crossed > 20 && crossed % 10 > 0` acceptance test rejects it:
`crossedFromLeftToRight()` returns `false` and leaves the state — in
particular the left-to-right counter — unchanged, whatever the current
tick and the debounce state; any second immediate query therefore also
returns `false`. -/
theorem c1_ltr_sequence_rejected (s : State) (t3 t2 t1 p1 : ℕ)
    (h0 : s.motion 0 = t3) (h1 : s.motion 1 = t2) (h2 : s.motion 2 = t1)
    (h4 : s.motion 4 = p1) (h5 : s.motion 5 = 0) (h6 : s.motion 6 = 0)
    (hp : 1 ≤ t3) (o1 : t3 < t2) (o2 : t2 < t1) (o3 : t1 < p1)
    (l1 : t2 ≤ t3 + s.lag) (l2 : t1 ≤ t2 + s.lag) (l3 : p1 ≤ t1 + s.lag) :
    (crossedFromLeftToRight s).1 = false ∧ (crossedFromLeftToRight s).2 = s := by
  have hscore : ¬ (20 < ltrScore s ∧ ltrScore s % 10 ≠ 0) := by
    rw [ltrScore_eq, h0, h1, h2, h4, h5]
    have g4 : score s.t s.lag 0 p1 = 0 :=
      score_zero_of_unstamped s.t s.lag (Or.inl rfl)
    rcases score_of_lt s.t s.lag t2 t3 o1 with e1 | e1 <;>
      rcases score_of_lt s.t s.lag t1 t2 o2 with e2 | e2 <;>
        rcases score_of_lt s.t s.lag p1 t1 o3 with e3 | e3 <;>
          rw [e1, e2, e3, g4] <;> decide
  by_cases hd : debounced s <;>
    simp [crossedFromLeftToRight, hd, hscore]

/-- C1, witness for the amended theorem at the concrete state `c1wit`
(stamps 2 < 3 < 4 < 5, `lag = 3`). -/
theorem c1_witness :
    (crossedFromLeftToRight c1wit).1 = false ∧
    (crossedFromLeftToRight c1wit).2 = c1wit :=
  c1_ltr_sequence_rejected c1wit 2 3 4 5 rfl rfl rfl rfl rfl rfl
    (by decide) (by decide) (by decide) (by decide)
    (by decide) (by decide) (by decide)

/-! ### C2 -/

/-- C2: in every state with the debounce cooldown elapsed, every
pairwise score is 0, 1 or 10; each crossing query returns `true` exactly
when its four-pair sum exceeds 20 and is not a multiple of 10, in which
case it increments exactly its own direction counter (mod 2^16) and
consumes the debounce cooldown; otherwise it returns `false` and leaves
the state untouched. -/
theorem c2_acceptance_rule (s : State) (hd : s.debounceElapsed = true) :
    (∀ a b : ℤ, gt s a b = 0 ∨ gt s a b = 1 ∨ gt s a b = 10) ∧
    (((crossedFromLeftToRight s).1 = true ↔
        20 < ltrScore s ∧ ltrScore s % 10 ≠ 0) ∧
      (20 < ltrScore s ∧ ltrScore s % 10 ≠ 0 →
        (crossedFromLeftToRight s).2 =
          { s with ltrCount := (s.ltrCount + 1) % 65536,
                   debounceElapsed := false }) ∧
      (¬ (20 < ltrScore s ∧ ltrScore s % 10 ≠ 0) →
        (crossedFromLeftToRight s).2 = s)) ∧
    (((crossedFromRightToLeft s).1 = true ↔
        20 < rtlScore s ∧ rtlScore s % 10 ≠ 0) ∧
      (20 < rtlScore s ∧ rtlScore s % 10 ≠ 0 →
        (crossedFromRightToLeft s).2 =
          { s with rtlCount := (s.rtlCount + 1) % 65536,
                   debounceElapsed := false }) ∧
      (¬ (20 < rtlScore s ∧ rtlScore s % 10 ≠ 0) →
        (crossedFromRightToLeft s).2 = s)) := by
  refine ⟨fun a b => score_cases _ _ _ _, ⟨?_, ?_, ?_⟩, ⟨?_, ?_, ?_⟩⟩ <;>
    by_cases hc : 20 < ltrScore s ∧ ltrScore s % 10 ≠ 0 <;>
      by_cases hc' : 20 < rtlScore s ∧ rtlScore s % 10 ≠ 0 <;>
        simp [crossedFromLeftToRight, crossedFromRightToLeft, debounced,
          touch, hd, hc, hc']

section
attribute [local semireducible] Rat.mul Rat.sub Rat.add Rat.inv

/-- C2, witness: the state `c2acc` (scores 10 + 10 + 1 + 10 = 31)
accepts a left-to-right crossing, incrementing the counter from 0 to 1
and consuming the cooldown. -/
theorem c2_witness :
    (crossedFromLeftToRight c2acc).1 = true ∧
    (crossedFromLeftToRight c2acc).2 =
      { c2acc with ltrCount := (c2acc.ltrCount + 1) % 65536,
                   debounceElapsed := false } :=
  ⟨((c2_acceptance_rule c2acc rfl).2.1.1).mpr (by decide),
   (c2_acceptance_rule c2acc rfl).2.1.2.1 (by decide)⟩

end

/-! ### C9 -/

/-- C9: in every state in which at most one of the seven motion-buffer
slots is nonzero, both crossing queries return `false` and leave the
state — in particular both counters — unchanged, whatever the current
tick and the debounce state. -/
theorem c9_single_bin_never_crosses (s : State)
    (h : ∀ i j : Fin 7, i ≠ j → s.motion i = 0 ∨ s.motion j = 0) :
    (crossedFromLeftToRight s).1 = false ∧ (crossedFromLeftToRight s).2 = s ∧
    (crossedFromRightToLeft s).1 = false ∧ (crossedFromRightToLeft s).2 = s := by
  have z : ∀ a b : Fin 7, a ≠ b →
      score s.t s.lag (s.motion a) (s.motion b) = 0 := fun a b hab =>
    score_zero_of_unstamped s.t s.lag (h a b hab)
  have hl : ltrScore s = 0 := by
    rw [ltrScore_eq, z 1 0 (by decide), z 2 1 (by decide), z 4 2 (by decide),
      z 5 4 (by decide)]
  have hr : rtlScore s = 0 := by
    rw [rtlScore_eq, z 1 2 (by decide), z 2 4 (by decide), z 4 5 (by decide),
      z 5 6 (by decide)]
  by_cases hd : debounced s <;>
    simp [crossedFromLeftToRight, crossedFromRightToLeft, hd, hl, hr]

/-- C9, witness at the concrete single-stamp state `c9one`. -/
theorem c9_witness :
    (crossedFromLeftToRight c9one).1 = false ∧
    (crossedFromLeftToRight c9one).2 = c9one ∧
    (crossedFromRightToLeft c9one).1 = false ∧
    (crossedFromRightToLeft c9one).2 = c9one :=
  c9_single_bin_never_crosses c9one (by decide)

/-! ### Branch characterisations of `update()` -/

/-- Calling `update()` with a line column resolving below 1 fails on line 97,
recording only the edge-proximity message. -/
theorem updateFull_fail_x (d : Detector) (s : State) (h : resolvedX d s < 1) :
    updateFull d s =
      (false, { s with errorMessage := "x-coordinate must be >= 8" }, []) := by
  unfold updateFull
  rw [if_pos h]
  rfl

/-- Calling `update()` with a valid line column but `below >= above` fails on
line 100, recording only the bounds-mismatch message. -/
theorem updateFull_fail_y (d : Detector) (s : State) (h1 : ¬ resolvedX d s < 1)
    (h2 : resolvedAbove d s ≤ resolvedBelow d s) :
    updateFull d s =
      (false, { s with errorMessage := "above/below limits mismatch" }, []) := by
  unfold updateFull
  rw [if_neg h1, if_pos h2]
  rfl

/-- A validated `update()` advances the tick, runs the sampling loop and
clears the error message. -/
theorem updateFull_ok (d : Detector) (s : State) (h1 : ¬ resolvedX d s < 1)
    (h2 : ¬ resolvedAbove d s ≤ resolvedBelow d s) :
    updateFull d s =
      (true,
       { s with t := nextT s, motion := (scanAllR d s).1, errorMessage := "" },
       (scanAllR d s).2) := by
  unfold updateFull
  rw [if_neg h1, if_neg h2]
  rfl

/-- A bin whose slot passes the freshness test `_motion[i + 3] >= _t -
_lag` of line 114 is skipped: slot kept, no columns sampled. -/
theorem scanBin_fresh (d : Detector) (x below above t lag sparsity : ℕ)
    (i : ℤ) (slot : ℕ) (h : (t : ℤ) - (lag : ℤ) ≤ (slot : ℤ)) :
    scanBin d x below above t lag sparsity i slot = (slot, []) := by
  unfold scanBin
  rw [if_pos h]

/-! ### C7 -/

/-- C7: `update()` fails exactly when the resolved line column is below
1 or the resolved below-row is at least the resolved above-row; each
failure records its human-readable message and leaves every other field
— tick, motion buffer, both counters — unchanged, and any failing call
ends with a nonempty error message. -/
theorem c7_validation (d : Detector) (s : State) :
    ((updateFull d s).1 = false ↔
      (resolvedX d s < 1 ∨ resolvedAbove d s ≤ resolvedBelow d s)) ∧
    (resolvedX d s < 1 →
      (updateFull d s).2.1 =
        { s with errorMessage := "x-coordinate must be >= 8" }) ∧
    (¬ resolvedX d s < 1 → resolvedAbove d s ≤ resolvedBelow d s →
      (updateFull d s).2.1 =
        { s with errorMessage := "above/below limits mismatch" }) ∧
    ((updateFull d s).1 = false →
      (updateFull d s).2.1.t = s.t ∧ (updateFull d s).2.1.motion = s.motion ∧
      (updateFull d s).2.1.ltrCount = s.ltrCount ∧
      (updateFull d s).2.1.rtlCount = s.rtlCount ∧
      (updateFull d s).2.1.errorMessage ≠ "") := by
  by_cases h1 : resolvedX d s < 1
  · rw [updateFull_fail_x d s h1]
    simp [h1]
  · by_cases h2 : resolvedAbove d s ≤ resolvedBelow d s
    · rw [updateFull_fail_y d s h1 h2]
      simp [h1, h2]
    · rw [updateFull_ok d s h1 h2]
      simp [h1, h2]

section
attribute [local semireducible] Rat.mul Rat.sub Rat.add Rat.inv

/-- C7, witness: a freshly constructed counter still has `_x = 0`, whose
resolved column 0 fails validation; `update()` returns `false`, stores
the edge-proximity message and changes nothing else. -/
theorem c7_witness :
    (updateFull dAllBg init).1 = false ∧
    (updateFull dAllBg init).2.1 =
      { init with errorMessage := "x-coordinate must be >= 8" } :=
  ⟨(c7_validation dAllBg init).1.mpr (Or.inl (by decide)),
   (c7_validation dAllBg init).2.1 (by decide)⟩

end

/-! ### C10 -/

/-- C10: with `lag >= 1`, any successful `update()` whose post-increment
tick is still at most `lag` skips every bin: no column of the grid is
sampled and all seven motion slots are unchanged — even on a grid that
is entirely foreground. -/
theorem c10_warmup_skips_all_bins (d : Detector) (s : State)
    (hlag : 1 ≤ s.lag) (hok : (updateFull d s).1 = true)
    (hle : (updateFull d s).2.1.t ≤ s.lag) :
    (updateFull d s).2.1.motion = s.motion ∧ (updateFull d s).2.2 = [] := by
  by_cases h1 : resolvedX d s < 1
  · rw [updateFull_fail_x d s h1] at hok
    simp at hok
  by_cases h2 : resolvedAbove d s ≤ resolvedBelow d s
  · rw [updateFull_fail_y d s h1 h2] at hok
    simp at hok
  rw [updateFull_ok d s h1 h2] at hle ⊢
  have hT : nextT s ≤ s.lag := hle
  have hskip : ∀ k : Fin 7,
      scanBin d (resolvedX d s) (resolvedBelow d s) (resolvedAbove d s)
        (nextT s) s.lag s.sparsity ((k : ℤ) - 3) (s.motion k) =
      (s.motion k, []) := by
    intro k
    apply scanBin_fresh
    omega
  constructor
  · show (scanAllR d s).1 = s.motion
    funext k
    show (if k = 3 then s.motion k
      else (scanBin d (resolvedX d s) (resolvedBelow d s) (resolvedAbove d s)
        (nextT s) s.lag s.sparsity ((k : ℤ) - 3) (s.motion k)).1) = s.motion k
    by_cases hk : k = 3
    · rw [if_pos hk]
    · rw [if_neg hk, hskip k]
  · show (scanAllR d s).2 = []
    unfold scanAllR scanAll activeBins
    simp only [List.map_cons, List.map_nil]
    rw [hskip 0, hskip 1, hskip 2, hskip 4, hskip 5, hskip 6]
    rfl

section
attribute [local semireducible] Rat.mul Rat.sub Rat.add Rat.inv

/-- C10, witness: the first `update()` of a freshly configured counter
(post-increment tick 1, lag 3) on an all-foreground grid records no
motion at all. -/
theorem c10_witness :
    (updateFull dAllFg sHalf).2.1.motion = sHalf.motion ∧
    (updateFull dAllFg sHalf).2.2 = [] :=
  c10_warmup_skips_all_bins dAllFg sHalf (by decide) (by decide) (by decide)

end

/-! ### C8 -/

/-- The post-increment tick never exceeds the ceiling 65000. -/
theorem nextT_le_65000 (s : State) : nextT s ≤ 65000 := by
  unfold nextT
  split_ifs with h <;> omega

/-- From a pre-increment tick at most 65000 the increment does not wrap
mod 2^16: the new tick is `t + 1`, or 1 past the ceiling. -/
theorem nextT_of_le (s : State) (h : s.t ≤ 65000) :
    nextT s = if 65000 < s.t + 1 then 1 else s.t + 1 := by
  unfold nextT
  have hm : (s.t + 1) % 65536 = s.t + 1 := by omega
  rw [hm]

/-- Neither crossing query ever changes the tick. -/
theorem queries_preserve_t (s : State) :
    (crossedFromLeftToRight s).2.t = s.t ∧
    (crossedFromRightToLeft s).2.t = s.t := by
  unfold crossedFromLeftToRight crossedFromRightToLeft touch
  constructor <;> split_ifs <;> rfl

/-- Every operation keeps the tick at or below 65000. -/
theorem applyOp_t_le (o : Op) (s : State) (h : s.t ≤ 65000) :
    (applyOp o s).t ≤ 65000 := by
  cases o with
  | doUpdate d =>
    show (updateFull d s).2.1.t ≤ 65000
    by_cases h1 : resolvedX d s < 1
    · rw [updateFull_fail_x d s h1]
      exact h
    by_cases h2 : resolvedAbove d s ≤ resolvedBelow d s
    · rw [updateFull_fail_y d s h1 h2]
      exact h
    · rw [updateFull_ok d s h1 h2]
      exact nextT_le_65000 s
  | queryLtr => exact (queries_preserve_t s).1 ▸ h
  | queryRtl => exact (queries_preserve_t s).2 ▸ h
  | lineAt v => exact h
  | above v => exact h
  | below v => exact h
  | lag n => exact h
  | sparsity n => exact h
  | cooldown b => exact h

/-- Running any operation sequence from a tick at most 65000 keeps the
tick at most 65000. -/
theorem run_t_le (ops : List Op) (s : State) (h : s.t ≤ 65000) :
    (run ops s).t ≤ 65000 := by
  induction ops generalizing s with
  | nil => exact h
  | cons o os ih => exact ih (applyOp o s) (applyOp_t_le o s h)

/-- C8: (i) a successful `update()` from a reachable tick advances it by
exactly 1 — except that past the ceiling 65000 it wraps to 1 — and lands
in [1, 65000]; (ii) every reachable state has tick at most 65000, hence
strictly inside the 16-bit range; (iii) once the tick is positive (as it
is after any successful update), no operation can return it to 0; with
`init.t = 0`, the tick is 0 exactly until the first successful
update. -/
theorem c8_tick_wrap :
    (∀ (d : Detector) (s : State), s.t ≤ 65000 → (updateFull d s).1 = true →
      (updateFull d s).2.1.t = (if 65000 < s.t + 1 then 1 else s.t + 1) ∧
      1 ≤ (updateFull d s).2.1.t ∧ (updateFull d s).2.1.t ≤ 65000) ∧
    (∀ s : State, Reach s → s.t ≤ 65000 ∧ s.t < 65536) ∧
    (∀ (o : Op) (s : State), 1 ≤ s.t → s.t ≤ 65000 →
      1 ≤ (applyOp o s).t ∧ (applyOp o s).t ≤ 65000) ∧
    init.t = 0 := by
  have hupd : ∀ (d : Detector) (s : State), s.t ≤ 65000 →
      (updateFull d s).1 = true →
      (updateFull d s).2.1.t = (if 65000 < s.t + 1 then 1 else s.t + 1) ∧
      1 ≤ (updateFull d s).2.1.t ∧ (updateFull d s).2.1.t ≤ 65000 := by
    intro d s h hok
    by_cases h1 : resolvedX d s < 1
    · rw [updateFull_fail_x d s h1] at hok
      simp at hok
    by_cases h2 : resolvedAbove d s ≤ resolvedBelow d s
    · rw [updateFull_fail_y d s h1 h2] at hok
      simp at hok
    rw [updateFull_ok d s h1 h2]
    refine ⟨nextT_of_le s h, ?_, nextT_le_65000 s⟩
    show 1 ≤ nextT s
    rw [nextT_of_le s h]
    split_ifs <;> omega
  refine ⟨hupd, ?_, ?_, rfl⟩
  · rintro s ⟨ops, rfl⟩
    have h := run_t_le ops init (by decide)
    exact ⟨h, by omega⟩
  · intro o s h1 h
    refine ⟨?_, applyOp_t_le o s h⟩
    cases o with
    | doUpdate d =>
      show 1 ≤ (updateFull d s).2.1.t
      by_cases hx : resolvedX d s < 1
      · rw [updateFull_fail_x d s hx]
        exact h1
      by_cases hy : resolvedAbove d s ≤ resolvedBelow d s
      · rw [updateFull_fail_y d s hx hy]
        exact h1
      · rw [updateFull_ok d s hx hy]
        show 1 ≤ nextT s
        rw [nextT_of_le s h]
        split_ifs <;> omega
    | queryLtr => exact (queries_preserve_t s).1 ▸ h1
    | queryRtl => exact (queries_preserve_t s).2 ▸ h1
    | lineAt v => exact h1
    | above v => exact h1
    | below v => exact h1
    | lag n => exact h1
    | sparsity n => exact h1
    | cooldown b => exact h1

section
attribute [local semireducible] Rat.mul Rat.sub Rat.add Rat.inv

/-- C8, witness: a successful `update()` at tick 7 advances to tick 8,
inside [1, 65000]; the freshly constructed state is reachable with tick
0; and an arbitrary operation from tick 7 keeps the tick in
[1, 65000]. -/
theorem c8_witness :
    ((updateFull dAllFg c8wit).2.1.t = 8 ∧
      1 ≤ (updateFull dAllFg c8wit).2.1.t ∧
      (updateFull dAllFg c8wit).2.1.t ≤ 65000) ∧
    (init.t ≤ 65000 ∧ init.t < 65536) ∧
    (1 ≤ (applyOp Op.queryLtr c8wit).t ∧
      (applyOp Op.queryLtr c8wit).t ≤ 65000) := by
  refine ⟨?_, c8_tick_wrap.2.1 init ⟨[], rfl⟩,
    c8_tick_wrap.2.2.1 Op.queryLtr c8wit (by decide) (by decide)⟩
  have h := c8_tick_wrap.1 dAllFg c8wit (by decide) (by decide)
  simpa using h

end

/-! ### C3 -/

section
attribute [local semireducible] Rat.mul Rat.sub Rat.add Rat.inv

/-- C3, counterexample: with `lineAt(16)` the configured value 16 is at
least 1, but the resolved column is `16 / 8 = 2`, not 16: values at or
above 1 are treated as pixel coordinates and divided by the 8-pixel cell
size, not taken as cell coordinates. -/
theorem c3_counterexample :
    c3cex.x = 16 ∧ resolvedX dAllBg c3cex = 2 ∧ (2 : ℕ) ≠ 16 := by
  decide

end

/-- A rational in `[0, 65536)` converts to `uint16_t` as its floor. -/
theorem qToU16_int_eq (q : ℚ) (h0 : 0 ≤ q) (h1 : q < 65536) :
    (qToU16 q : ℤ) = ⌊q⌋ := by
  unfold qToU16 u16ofInt
  have hf0 : 0 ≤ ⌊q⌋ := Int.floor_nonneg.mpr h0
  have hf1 : ⌊q⌋ < 65536 := Int.floor_lt.mpr (by exact_mod_cast h1)
  rw [Int.emod_eq_of_lt hf0 hf1]
  exact Int.toNat_of_nonneg hf0

/-- C3, amended: a configured value of at least 1 is treated as a pixel
coordinate and divided by 8 (the 8-pixel cell size), keeping the
possibly fractional quotient; a value in [0, 1) is instead scaled by the
grid width (line column) or height (region rows).  The resolved line
column is the floor of that quotient or product — not the configured
value itself — and the resolved region rows truncate only after the
inversion: row = ⌊height − value / 8⌋ (respectively
⌊height − value · height⌋), not height − ⌊value / 8⌋. -/
theorem c3_resolution (d : Detector) (s : State) :
    (1 ≤ s.x → s.x < 524288 → (resolvedX d s : ℤ) = ⌊s.x / 8⌋) ∧
    (0 ≤ s.x → s.x < 1 → d.width < 65536 →
      (resolvedX d s : ℤ) = ⌊s.x * (d.width : ℚ)⌋) ∧
    (1 ≤ s.miny → 0 ≤ (d.height : ℚ) - s.miny / 8 →
      (d.height : ℚ) - s.miny / 8 < 65536 →
      (resolvedAbove d s : ℤ) = ⌊(d.height : ℚ) - s.miny / 8⌋) ∧
    (0 ≤ s.miny → s.miny < 1 → d.height < 65536 →
      (resolvedAbove d s : ℤ) = ⌊(d.height : ℚ) - s.miny * (d.height : ℚ)⌋) ∧
    (1 ≤ s.maxy → 0 ≤ (d.height : ℚ) - s.maxy / 8 →
      (d.height : ℚ) - s.maxy / 8 < 65536 →
      (resolvedBelow d s : ℤ) = ⌊(d.height : ℚ) - s.maxy / 8⌋) ∧
    (0 ≤ s.maxy → s.maxy < 1 → d.height < 65536 →
      (resolvedBelow d s : ℤ) = ⌊(d.height : ℚ) - s.maxy * (d.height : ℚ)⌋) := by
  refine ⟨?_, ?_, ?_, ?_, ?_, ?_⟩
  · intro hx hlt
    unfold resolvedX
    rw [if_pos hx]
    exact qToU16_int_eq _ (by linarith) (by linarith)
  · intro h0x h1x hw
    unfold resolvedX
    rw [if_neg (not_le.mpr h1x)]
    have hub : s.x * (d.width : ℚ) ≤ (d.width : ℚ) :=
      mul_le_of_le_one_left (by positivity) (le_of_lt h1x)
    have hw' : (d.width : ℚ) < 65536 := by exact_mod_cast hw
    exact qToU16_int_eq _ (by positivity) (by linarith)
  · intro h h0 h1
    unfold resolvedAbove
    rw [if_pos h]
    exact qToU16_int_eq _ h0 h1
  · intro h0 h1 hh
    unfold resolvedAbove
    rw [if_neg (not_le.mpr h1)]
    have hub : s.miny * (d.height : ℚ) ≤ (d.height : ℚ) :=
      mul_le_of_le_one_left (by positivity) (le_of_lt h1)
    have hh' : (d.height : ℚ) < 65536 := by exact_mod_cast hh
    have hnn : (0 : ℚ) ≤ s.miny * (d.height : ℚ) := by positivity
    exact qToU16_int_eq _ (by linarith) (by linarith)
  · intro h h0 h1
    unfold resolvedBelow
    rw [if_pos h]
    exact qToU16_int_eq _ h0 h1
  · intro h0 h1 hh
    unfold resolvedBelow
    rw [if_neg (not_le.mpr h1)]
    have hub : s.maxy * (d.height : ℚ) ≤ (d.height : ℚ) :=
      mul_le_of_le_one_left (by positivity) (le_of_lt h1)
    have hh' : (d.height : ℚ) < 65536 := by exact_mod_cast hh
    have hnn : (0 : ℚ) ≤ s.maxy * (d.height : ℚ) := by positivity
    exact qToU16_int_eq _ (by linarith) (by linarith)

section
attribute [local semireducible] Rat.mul Rat.sub Rat.add Rat.inv

/-- C3, witness: the absolute value 16 resolves to `⌊16 / 8⌋ = 2`; the
fractional value 1/2 resolves to `⌊(1/2) * 30⌋ = 15` on a 30-wide grid;
the absolute row value 12 on a 10-high grid resolves to
`⌊10 - 12 / 8⌋ = ⌊8.5⌋ = 8` (truncated after inversion: before-inversion
truncation would give `10 - ⌊12 / 8⌋ = 9`); and the fractional row value
999/1000 scales by the grid height. -/
theorem c3_witness :
    ((resolvedX dAllBg c3cex : ℤ) = ⌊c3cex.x / 8⌋ ∧
      resolvedX dAllBg c3cex = 2) ∧
    (resolvedX dAllBg sHalf : ℤ) = ⌊sHalf.x * (dAllBg.width : ℚ)⌋ ∧
    ((resolvedAbove dAllBg c3row : ℤ) =
        ⌊(dAllBg.height : ℚ) - c3row.miny / 8⌋ ∧
      resolvedAbove dAllBg c3row = 8 ∧ (8 : ℕ) ≠ 10 - 12 / 8) ∧
    (resolvedBelow dAllBg sHalf : ℤ) =
      ⌊(dAllBg.height : ℚ) - sHalf.maxy * (dAllBg.height : ℚ)⌋ :=
  ⟨⟨(c3_resolution dAllBg c3cex).1 (by decide) (by decide), by decide⟩,
   (c3_resolution dAllBg sHalf).2.1 (by decide) (by decide) (by decide),
   ⟨(c3_resolution dAllBg c3row).2.2.1 (by decide) (by decide) (by decide),
    by decide, by decide⟩,
   (c3_resolution dAllBg sHalf).2.2.2.2.2 (by decide) (by decide) (by decide)⟩

end

/-! ### C4 -/

section
attribute [local semireducible] Rat.mul Rat.sub Rat.add Rat.inv

/-- C4, counterexample: on a fully foreground grid with a valid
mid-frame line, the first `update()` (post-increment tick 1, lag 3)
succeeds but samples no column at all — its trace is empty — and every
slot stays 0, although all seven slots are 0 ("never observed") and the
claim says such bins are always scanned (a scan of this all-foreground
grid would have stamped them). -/
theorem c4_counterexample :
    sHalf.motion 0 = 0 ∧ sHalf.lag = 3 ∧
    (updateFull dAllFg sHalf).1 = true ∧
    (updateFull dAllFg sHalf).2.1.t = 1 ∧
    (updateFull dAllFg sHalf).2.2 = [] ∧
    (updateFull dAllFg sHalf).2.1.motion 0 = 0 := by
  decide

end

/-- C4, amended: during a successful `update()`, the scan of an active
bin is skipped — slot kept and no column sampled — exactly when the
bin's timestamp satisfies `slot >= tick - lag` as signed integers, where
`tick` is the post-increment tick; otherwise its column loop runs.  In
particular a bin whose slot is 0 is skipped, not scanned, whenever the
post-increment tick is at most `lag`; a never-observed bin is scanned
only once the tick exceeds `lag`. -/
theorem c4_fresh_skip (d : Detector) (s : State) (k : Fin 7) (hk : k ≠ 3) :
    ((updateFull d s).1 = true →
      (updateFull d s).2.1.motion k = (binScan d s k).1) ∧
    ((nextT s : ℤ) - (s.lag : ℤ) ≤ (s.motion k : ℤ) →
      binScan d s k = (s.motion k, [])) ∧
    ((s.motion k : ℤ) < (nextT s : ℤ) - (s.lag : ℤ) →
      binScan d s k = scanCols d (resolvedX d s) (resolvedBelow d s)
        (resolvedAbove d s) (nextT s) ((k : ℤ) - 3) s.sparsity
        (List.range s.sparsity) (s.motion k)) ∧
    (s.motion k = 0 → nextT s ≤ s.lag → binScan d s k = (0, [])) := by
  refine ⟨?_, ?_, ?_, ?_⟩
  · intro hok
    by_cases h1 : resolvedX d s < 1
    · rw [updateFull_fail_x d s h1] at hok
      simp at hok
    by_cases h2 : resolvedAbove d s ≤ resolvedBelow d s
    · rw [updateFull_fail_y d s h1 h2] at hok
      simp at hok
    rw [updateFull_ok d s h1 h2]
    show (if k = 3 then s.motion k else (binScan d s k).1) = (binScan d s k).1
    rw [if_neg hk]
  · intro h
    unfold binScan
    exact scanBin_fresh d (resolvedX d s) (resolvedBelow d s)
      (resolvedAbove d s) (nextT s) s.lag s.sparsity ((k : ℤ) - 3)
      (s.motion k) h
  · intro h
    unfold binScan scanBin
    rw [if_neg (not_le.mpr h)]
  · intro hz hle
    have hfresh : (nextT s : ℤ) - (s.lag : ℤ) ≤ (s.motion k : ℤ) := by
      rw [hz]
      push_cast
      omega
    unfold binScan
    rw [scanBin_fresh d (resolvedX d s) (resolvedBelow d s)
      (resolvedAbove d s) (nextT s) s.lag s.sparsity ((k : ℤ) - 3)
      (s.motion k) hfresh, hz]

section
attribute [local semireducible] Rat.mul Rat.sub Rat.add Rat.inv

/-- C4, witness: on the first `update()` after construction
(post-increment tick 1, lag 3, slot 0) bin -3 is skipped, and the new
buffer agrees with the bin-scan result. -/
theorem c4_witness :
    binScan dAllFg sHalf 0 = (0, []) ∧
    (updateFull dAllFg sHalf).2.1.motion 0 = (binScan dAllFg sHalf 0).1 :=
  ⟨(c4_fresh_skip dAllFg sHalf 0 (by decide)).2.2.2 rfl (by decide),
   (c4_fresh_skip dAllFg sHalf 0 (by decide)).1 (by decide)⟩

end

/-! ### C5 -/

section
attribute [local semireducible] Rat.mul Rat.sub Rat.add Rat.inv

/-- C5, failing input: on the 16-cell-wide grid `dEdge` with the line at
fraction 1/2 (resolved column 8) and every bin scanned, the bounds check
`dx + x < 0 || dx + x > width` of line 120 lets column 16 — equal to the
width, hence one past the last valid column 15 — through to the
detector: 16 appears in the trace of sampled columns, and the row range
is nonempty, so `isForeground(16, y)` is actually queried. -/
theorem c5_out_of_bounds_column_queried :
    dEdge.width = 16 ∧
    (updateFull dEdge c5s).1 = true ∧
    (16 : ℕ) ∈ (updateFull dEdge c5s).2.2 ∧
    resolvedBelow dEdge c5s < resolvedAbove dEdge c5s := by
  decide

end

/-! ### C6 -/

/-- Unfolding of the in-bounds column list over one sub-offset. -/
theorem inBoundsCols_cons (d : Detector) (x : ℕ) (i : ℤ) (sparsity : ℕ)
    (j : ℕ) (js : List ℕ) :
    inBoundsCols d x i sparsity (j :: js) =
      if colAt x i sparsity j < 0 ∨ (d.width : ℤ) < colAt x i sparsity j then
        inBoundsCols d x i sparsity js
      else (colAt x i sparsity j).toNat :: inBoundsCols d x i sparsity js := by
  unfold inBoundsCols
  rw [List.filterMap_cons]
  split_ifs with h <;> simp [h]

/-- The column loop of a bin whose slot already holds a nonzero (stale)
timestamp stops after the first in-bounds column, whether or not that
column contains foreground. -/
theorem scanCols_stale (d : Detector) (x below above t : ℕ) (i : ℤ)
    (sparsity : ℕ) (js : List ℕ) (slot : ℕ) (ht : 1 ≤ t) (hs : slot ≠ 0) :
    scanCols d x below above t i sparsity js slot =
      match inBoundsCols d x i sparsity js with
      | [] => (slot, [])
      | c :: _ =>
        (if colFound d c below above then t else slot, [c]) := by
  induction js with
  | nil => rfl
  | cons j js ih =>
    by_cases hb : colAt x i sparsity j < 0 ∨ (d.width : ℤ) < colAt x i sparsity j
    · simp only [scanCols]
      rw [if_pos hb, ih, inBoundsCols_cons, if_pos hb]
    · simp only [scanCols]
      rw [if_neg hb, inBoundsCols_cons, if_neg hb]
      by_cases hf : colFound d (colAt x i sparsity j).toNat below above
      · rw [if_pos hf, if_neg (show ¬ t = 0 by omega)]
        simp [hf]
      · rw [if_neg hf, if_neg hs]
        simp [hf]

/-- The column loop of a bin whose slot is 0 at loop entry scans the
in-bounds columns in order and stops exactly at the first column that
contains a foreground cell, stamping the slot with the tick `t`; if no
sampled column contains foreground, every in-bounds column is scanned
and the slot stays 0. -/
theorem scanCols_zero (d : Detector) (x below above t : ℕ) (i : ℤ)
    (sparsity : ℕ) (js : List ℕ) (ht : 1 ≤ t) :
    scanCols d x below above t i sparsity js 0 =
      match (inBoundsCols d x i sparsity js).find?
          (fun c => colFound d c below above) with
      | none => (0, inBoundsCols d x i sparsity js)
      | some c =>
        (t, (inBoundsCols d x i sparsity js).takeWhile
              (fun c => ! colFound d c below above) ++ [c]) := by
  induction js with
  | nil => rfl
  | cons j js ih =>
    by_cases hb : colAt x i sparsity j < 0 ∨ (d.width : ℤ) < colAt x i sparsity j
    · simp only [scanCols]
      rw [if_pos hb, ih, inBoundsCols_cons, if_pos hb]
    · simp only [scanCols]
      rw [if_neg hb, inBoundsCols_cons, if_neg hb]
      by_cases hf : colFound d (colAt x i sparsity j).toNat below above
      · rw [if_pos hf, if_neg (show ¬ t = 0 by omega),
          List.find?_cons_of_pos _ (by simpa using hf),
          List.takeWhile_cons_of_neg (by simpa using hf)]
        simp
      · rw [if_neg hf, if_pos rfl, ih,
          List.find?_cons_of_neg _ (by simpa using hf),
          List.takeWhile_cons_of_pos (by simpa using hf)]
        cases hfind : (inBoundsCols d x i sparsity js).find?
            (fun c => colFound d c below above) <;> simp

/-- C6, amended: for an active bin that is scanned during `update()`
(post-increment tick at least 1): if the bin's slot is 0 at scan start,
its in-bounds columns are scanned in order and scanning stops exactly at
the first column containing a foreground cell, which stamps the slot
with the current tick (all in-bounds columns are scanned and the slot
stays 0 when none contains foreground); but if the slot holds a nonzero
stale timestamp, the `if (_motion[i + 3]) break` of line 130 stops the
loop after the first in-bounds column whether or not foreground was
found, so at most one column of the band is sampled. -/
theorem c6_scan_stop_condition (d : Detector) (s : State) (k : Fin 7)
    (hk : k ≠ 3) (ht : 1 ≤ nextT s)
    (hscan : (s.motion k : ℤ) < (nextT s : ℤ) - (s.lag : ℤ)) :
    (s.motion k = 0 →
      binScan d s k =
        match (inBoundsCols d (resolvedX d s) ((k : ℤ) - 3) s.sparsity
            (List.range s.sparsity)).find?
            (fun c => colFound d c (resolvedBelow d s) (resolvedAbove d s)) with
        | none => (0, inBoundsCols d (resolvedX d s) ((k : ℤ) - 3) s.sparsity
            (List.range s.sparsity))
        | some c => (nextT s,
            (inBoundsCols d (resolvedX d s) ((k : ℤ) - 3) s.sparsity
              (List.range s.sparsity)).takeWhile
              (fun c => ! colFound d c (resolvedBelow d s) (resolvedAbove d s))
            ++ [c])) ∧
    (s.motion k ≠ 0 →
      binScan d s k =
        match inBoundsCols d (resolvedX d s) ((k : ℤ) - 3) s.sparsity
            (List.range s.sparsity) with
        | [] => (s.motion k, [])
        | c :: _ =>
          (if colFound d c (resolvedBelow d s) (resolvedAbove d s)
            then nextT s else s.motion k, [c])) := by
  unfold binScan scanBin
  rw [if_neg (not_le.mpr hscan)]
  constructor
  · intro hz
    rw [hz]
    exact scanCols_zero d (resolvedX d s) (resolvedBelow d s)
      (resolvedAbove d s) (nextT s) ((k : ℤ) - 3) s.sparsity
      (List.range s.sparsity) ht
  · intro hnz
    exact scanCols_stale d (resolvedX d s) (resolvedBelow d s)
      (resolvedAbove d s) (nextT s) ((k : ℤ) - 3) s.sparsity
      (List.range s.sparsity) (s.motion k) ht hnz

section
attribute [local semireducible] Rat.mul Rat.sub Rat.add Rat.inv

/-- C6, counterexample: in state `c6s` (line at resolved column 15 on an
all-background 30-wide grid, bin -3 stale at stamp 1, the other active
bins fresh), a successful `update()` samples exactly one column — column
3, the first of bin -3's band of `sparsity = 4` columns 3, 4, 5, 6 —
finds no foreground, stamps nothing, and stops: the claim's "all
sparsity consecutive columns are scanned" and "stops only after a
foreground cell is found and stamped" both fail. -/
theorem c6_counterexample :
    c6s.motion 0 = 1 ∧ c6s.sparsity = 4 ∧
    (updateFull dAllBg c6s).1 = true ∧
    (updateFull dAllBg c6s).2.2 = [3] ∧
    (updateFull dAllBg c6s).2.1.motion 0 = 1 := by
  decide

/-- C6, witness for the stale-slot clause at the concrete state `c6s`:
the scan of bin -3 keeps the stale stamp 1 and samples only column 3. -/
theorem c6_witness : binScan dAllBg c6s 0 = (1, [3]) := by
  have h := (c6_scan_stop_condition dAllBg c6s 0 (by decide) (by decide)
    (by decide)).2 (by decide)
  rw [h]
  decide

end

end LineCrossing
